import Mathlib

/-
  Verification of the pulp_docker sync pipeline core
  (src/pulp_docker/app/tasks/sync_stages.py, with the observed second
  variant src/pulp_docker/app/tasks/sync_stages1.py).

  The embedding models the two pipeline stages:
    - DockerFirstStage (the content-graph Builder): the per-fetch-result
      body of DockerFirstStage.run (sync_stages.py lines 86-113), together
      with create_tag, handle_blobs, create_and_process_blob,
      create_and_process_manifest, create_and_process_tagged_manifest,
      create_and_process_tagged_manifest_list and the layer filter.
    - InterrelateContent (the deferred reference Resolver): run and the
      five relate handlers (sync_stages.py lines 335-433).

  Python exceptions are modelled by the PyError type; fallible code
  returns Except PyError or carries an Option PyError alongside its
  result.  Persistent rows live in explicit state records (ListStore for
  the Builder, DB for the Resolver); a save that would violate a
  uniqueness constraint returns the integrityError signal, mirroring
  django IntegrityError.
-/

/-- Python exception outcomes reachable in the modelled code paths. -/
inductive PyError
  | typeError
  | keyError
  | unboundLocalError
  | integrityError
  | assertionError
  | attributeError
  | doesNotExist
deriving DecidableEq

namespace MEDIA_TYPE

/-- Modelled from the spec: media-type constants imported from
pulp_docker.app.models, a module that is not under src/.  The spec speaks
of the two supported manifest media types and the foreign-layer media
type; the claims depend only on these being distinct non-empty strings,
for which we use the standard docker registry v2 values. -/
def MANIFEST_V2 : String := "application/vnd.docker.distribution.manifest.v2+json"

/-- Modelled from the spec: the manifest-list media type, see MANIFEST_V2. -/
def MANIFEST_LIST : String := "application/vnd.docker.distribution.manifest.list.v2+json"

/-- Modelled from the spec: the foreign (externally hosted) layer media
type, see MANIFEST_V2. -/
def FOREIGN_BLOB : String := "application/vnd.docker.image.rootfs.foreign.diff.tar.gzip"

end MEDIA_TYPE

/-- A ManifestBlob content row: digest and media_type
(pulp_docker.app.models.ManifestBlob as used by create_and_process_blob). -/
structure BlobContent where
  digest : String
  media_type : String
deriving DecidableEq

/-- An ImageManifest content row: digest, schema_version, media_type and
the single-valued config_blob reference (held as the digest key of the
assigned content).  Builder-created manifests start with config_blob
none; only InterrelateContent.relate_config_blob assigns it. -/
structure ManContent where
  digest : String
  schema_version : Nat
  media_type : String
  config_blob : Option String
deriving DecidableEq

/-- A ManifestList content row. -/
structure ListContent where
  digest : String
  schema_version : Nat
  media_type : String
deriving DecidableEq

/-- A ManifestTag content row: name plus the single-valued manifest
target, none until InterrelateContent.relate_manifest assigns it. -/
structure ManifestTagC where
  name : String
  manifest : Option ManContent
deriving DecidableEq

/-- A ManifestListTag content row: name plus the single-valued
manifest_list target.  DockerFirstStage.run line 96 assigns the target
already in the Builder. -/
structure ManifestListTagC where
  name : String
  manifest_list : Option ListContent
deriving DecidableEq

/-- The content attached to a DeclarativeContent, one of the five model
classes flowing through the pipeline. -/
inductive Content
  | manifestTag (t : ManifestTagC)
  | manifestListTag (t : ManifestListTagC)
  | manifestList (l : ListContent)
  | imageManifest (m : ManContent)
  | manifestBlob (b : BlobContent)
deriving DecidableEq

/-- A DeclarativeContent as used by both stages: the content plus the
extra_data markers read by InterrelateContent.run.  Each marker holds the
content of the related DeclarativeContent, which is all the handlers
read from it. -/
structure DC where
  content : Content
  relation : Option ListContent := none
  blob_relation : Option ManContent := none
  config_relation : Option ManContent := none
  list_relation : Option ListContent := none
  man_relation : Option ManContent := none
deriving DecidableEq

/-- A layer or config descriptor inside a manifest payload.  mediaType is
optional because DockerFirstStage uses layer.get, which yields None for a
missing key; the digest key is always read by direct subscription and is
modelled as present. -/
structure LayerDescriptor where
  digest : String
  mediaType : Option String
deriving DecidableEq

/-- A member descriptor inside a manifest-list payload (its digest and
mediaType keys are read by direct subscription). -/
structure ManifestDescriptor where
  digest : String
  mediaType : String
deriving DecidableEq

/-- The parsed JSON payload of a completed manifest fetch, restricted to
the keys the Builder reads.  Keys read with dict.get are Options; keys
read by subscription on paths the claims exercise are plain fields. -/
structure ContentData where
  mediaType : Option String
  schemaVersion : Nat
  manifests : Option (List ManifestDescriptor)
  layers : Option (List LayerDescriptor)
  config : Option LayerDescriptor
deriving DecidableEq

/-- A completed downloader result as consumed by the parsing loop of
DockerFirstStage.run: the request url (the tag name is its last path
segment), the sha256 of the saved artifact, and the parsed payload. -/
structure FetchResult where
  url : String
  artifactSha : String
  payload : ContentData
deriving DecidableEq

/-- Python truthiness of an optional string: None and the empty string
are falsy, every other string is truthy (the mediatype guard at
sync_stages.py line 88). -/
def getTruthy : Option String → Option String
  | none => none
  | some s => if s = "" then none else some s

/-- DockerFirstStage._include_layer (sync_stages.py lines 316-332):
exclude a layer exactly when its mediaType marks it foreign and the
remote excludes foreign layers. -/
def include_layer (include_foreign_layers : Bool) (layer : LayerDescriptor) : Bool :=
  let foreign_excluded := !include_foreign_layers
  let is_foreign := decide (layer.mediaType = some MEDIA_TYPE.FOREIGN_BLOB)
  if is_foreign && foreign_excluded then false else true

/-- DockerFirstStage.create_and_process_blob (sync_stages.py lines
287-314).  Subscripting a None blob_data (blob_data with no config key
upstream) raises TypeError; a missing mediaType key raises KeyError. -/
def create_and_process_blob : Option LayerDescriptor → Except PyError BlobContent
  | none => .error .typeError
  | some d =>
    match d.mediaType with
    | none => .error .keyError
    | some m => .ok { digest := d.digest, media_type := m }

/-- The layer loop of DockerFirstStage.handle_blobs (sync_stages.py lines
143-148): per layer, skip it when include_layer rejects it, otherwise
build its blob DeclarativeContent, mark it with blob_relation pointing at
the manifest, and append it to put_later_blob_dc. -/
def layersLoop (inc : Bool) (man : ManContent) :
    List LayerDescriptor → List DC → Except PyError (List DC)
  | [], acc => .ok acc
  | l :: ls, acc =>
    if include_layer inc l then
      match create_and_process_blob (some l) with
      | .error e => .error e
      | .ok b =>
        layersLoop inc man ls (acc ++ [{ content := .manifestBlob b, blob_relation := some man }])
    else
      layersLoop inc man ls acc

/-- DockerFirstStage.handle_blobs (sync_stages.py lines 139-152): filter
and emit the layer blobs, then unconditionally build the config blob from
content_data.get of the config key and append it with the
config_relation marker.  Iterating a missing layers key raises
TypeError. -/
def handle_blobs (inc : Bool) (man : ManContent) (layers : Option (List LayerDescriptor))
    (config : Option LayerDescriptor) (put_later : List DC) : Except PyError (List DC) :=
  match layers with
  | none => .error .typeError
  | some ls =>
    match layersLoop inc man ls put_later with
    | .error e => .error e
    | .ok acc =>
      match create_and_process_blob config with
      | .error e => .error e
      | .ok cb => .ok (acc ++ [{ content := .manifestBlob cb, config_relation := some man }])

/-- The filtered-map form of the layer loop, used to state that the layer
filter is applied independently per layer: build one blob
DeclarativeContent per retained layer. -/
def blobDCsOf (man : ManContent) : List LayerDescriptor → Except PyError (List DC)
  | [] => .ok []
  | l :: ls =>
    match create_and_process_blob (some l) with
    | .error e => .error e
    | .ok b =>
      match blobDCsOf man ls with
      | .error e => .error e
      | .ok ds => .ok ({ content := .manifestBlob b, blob_relation := some man } :: ds)

/-- DockerFirstStage.create_tag (sync_stages.py lines 154-185): the tag
name is the last path segment of the result url; a manifest-list media
type yields a ManifestListTag, the manifest-v2 media type a ManifestTag.
Any other media type leaves the local variable tag unbound, so building
the DeclarativeContent raises UnboundLocalError. -/
def create_tag (mediatype : String) (url : String) : Except PyError DC :=
  let tag_name := (url.splitOn "/").getLastD ""
  if mediatype = MEDIA_TYPE.MANIFEST_LIST then
    .ok { content := .manifestListTag { name := tag_name, manifest_list := none } }
  else if mediatype = MEDIA_TYPE.MANIFEST_V2 then
    .ok { content := .manifestTag { name := tag_name, manifest := none } }
  else
    .error .unboundLocalError

/-- DockerFirstStage.create_and_process_manifest (sync_stages.py lines
253-285): a manifest stub for a manifest-list member, with the relation
marker pointing at the list. -/
def create_and_process_manifest (lst : ListContent) (d : ManifestDescriptor) : DC :=
  { content := .imageManifest
      { digest := d.digest, schema_version := 2, media_type := d.mediaType, config_blob := none },
    relation := some lst }

/-- The member loop of the manifest-list branch (sync_stages.py lines
97-102), emission part: one stub DeclarativeContent per member
descriptor. -/
def processMembers (lst : ListContent) : List ManifestDescriptor → List DC
  | [] => []
  | d :: ds => create_and_process_manifest lst d :: processMembers lst ds

/-- The store of saved ManifestList rows, keyed by digest (the save and
IntegrityError dedup of create_and_process_tagged_manifest_list,
sync_stages.py lines 214-220). -/
abbrev ListStore := List ListContent

/-- The save of list_dc.content with IntegrityError dedup: on a digest
conflict the existing row is fetched and used instead. -/
def saveManifestListDedup (store : ListStore) (l : ListContent) : ListContent × ListStore :=
  match store.find? (fun x => decide (x.digest = l.digest)) with
  | some existing => (existing, store)
  | none => (l, store ++ [l])

/-- The observable outcome of a slice of the parsing loop of
DockerFirstStage.run: the DeclarativeContents put downstream in order,
the put_later_blob_dc list, the ManifestList store, and the first
uncaught exception if one aborted the loop. -/
structure StepOut where
  emissions : List DC
  putLater : List DC
  store : ListStore
  err : Option PyError
deriving DecidableEq

/-- The body of the parsing loop of DockerFirstStage.run for one
completed fetch result (sync_stages.py lines 86-113).  A falsy mediatype
is dropped (continue).  In the manifest-list branch the list node is put
first, the list_relation marker and the manifest_list content field are
set on the tag, the member stubs are put, and the tag is put last; a
missing manifests key raises TypeError after the list node was put.  In
the single-manifest branch the manifest node is put, the man_relation
marker is set on the tag, handle_blobs runs (its exception aborts before
the tag is put), and the tag is put last.  The artifact save and dedup of
lines 80-85 resolve to a saved artifact whose sha256 is
FetchResult.artifactSha.  put_later additions made before an aborting
exception are never observable (blobs are only put after the loop), so an
aborted step reports put_later as it found it. -/
def processResult (inc : Bool) (store : ListStore) (put_later : List DC)
    (r : FetchResult) : StepOut :=
  match getTruthy r.payload.mediaType with
  | none => ⟨[], put_later, store, none⟩
  | some m =>
    match create_tag m r.url with
    | .error e => ⟨[], put_later, store, some e⟩
    | .ok tag_dc =>
      match tag_dc.content with
      | .manifestListTag t =>
        let digest := "sha256:" ++ r.artifactSha
        let saved := saveManifestListDedup store
          { digest := digest, schema_version := r.payload.schemaVersion, media_type := m }
        let listDc : DC := { content := .manifestList saved.1 }
        let tagDc : DC :=
          { content := .manifestListTag { t with manifest_list := some saved.1 },
            list_relation := some saved.1 }
        match r.payload.manifests with
        | none => ⟨[listDc], put_later, saved.2, some .typeError⟩
        | some mans =>
          ⟨listDc :: (processMembers saved.1 mans ++ [tagDc]), put_later, saved.2, none⟩
      | .manifestTag t =>
        let digest := "sha256:" ++ r.artifactSha
        let man : ManContent :=
          { digest := digest, schema_version := r.payload.schemaVersion,
            media_type := m, config_blob := none }
        let manDc : DC := { content := .imageManifest man }
        let tagDc : DC := { content := .manifestTag t, man_relation := some man }
        match handle_blobs inc man r.payload.layers r.payload.config put_later with
        | .error e => ⟨[manDc], put_later, store, some e⟩
        | .ok pl1 => ⟨[manDc, tagDc], pl1, store, none⟩
      | _ => ⟨[tag_dc], put_later, store, none⟩

/-- The parsing loop of DockerFirstStage.run over the fetch results in
the (arbitrary) completion order in which asyncio.wait yields them: each
result is processed by processResult; an uncaught exception aborts the
loop with the emissions made so far. -/
def processAll (inc : Bool) : ListStore → List DC → List FetchResult → StepOut
  | store, pl, [] => ⟨[], pl, store, none⟩
  | store, pl, r :: rs =>
    match processResult inc store pl r with
    | ⟨ems, pl1, store1, some e⟩ => ⟨ems, pl1, store1, some e⟩
    | ⟨ems, pl1, store1, none⟩ =>
      match processAll inc store1 pl1 rs with
      | ⟨ems2, pl2, store2, err⟩ => ⟨ems ++ ems2, pl2, store2, err⟩

/-- The tag-list response body of GET v2 tags list, as read by both
variants (tags_dict subscripted at the tags key; a missing key raises
KeyError). -/
structure TagsDict where
  tags : Option (List String)
deriving DecidableEq

/-- The fixed tag list hardcoded by the sync_stages1.py variant
(sync_stages1.py line 51). -/
def hardcodedTagList : List String :=
  ["musl", "latest", "glibc", "1-musl", "1-ubuntu", "1.29"]

/-- Tag discovery of DockerFirstStage.run in sync_stages.py (lines
54-56): the tag list processed is exactly the fetched one. -/
def tagDiscovery (d : TagsDict) : Except PyError (List String) :=
  match d.tags with
  | none => .error .keyError
  | some l => .ok l

/-- Tag discovery of DockerFirstStage.run in sync_stages1.py (lines
48-51): the fetched tag list is read and then replaced by the hardcoded
fixed list. -/
def tagDiscovery1 (d : TagsDict) : Except PyError (List String) :=
  match d.tags with
  | none => .error .keyError
  | some _ => .ok hardcodedTagList

/-- The relative manifest url both variants format per discovered tag
name (sync_stages.py lines 62-65). -/
def manifestRelativeUrl (name tag : String) : String :=
  "/v2/" ++ name ++ "/manifests/" ++ tag

/-- The per-tag manifest fetch requests a variant plans from its
discovered tag list. -/
def plannedTagFetches (name : String) (tags : List String) : List String :=
  tags.map (manifestRelativeUrl name)

/-- The persistent rows the Resolver reads and writes: the two edge
tables (as key pairs), the two tag tables and the manifest table. -/
structure DB where
  blobManifestPairs : List (String × String)
  listManifestPairs : List (String × String)
  manifestTagRows : List ManifestTagC
  manifestListTagRows : List ManifestListTagC
  imageManifestRows : List ManContent
deriving DecidableEq

/-- The empty store. -/
def emptyDB : DB := ⟨[], [], [], [], []⟩

/-- The identity key under which a content row is referenced when it is
assigned into a relation: digest for digest-keyed content, name for
tags. -/
def contentKey : Content → String
  | .manifestTag t => t.name
  | .manifestListTag t => t.name
  | .manifestList l => l.digest
  | .imageManifest m => m.digest
  | .manifestBlob b => b.digest

/-- Modelled from the spec: the BlobManifestBlob through table (declared
in pulp_docker.app.models, not under src/) holds one row per
(manifest, blob) pair; saving an existing pair raises the
duplicate-conflict signal. -/
def saveBlobManifestBlob (db : DB) (manifestDigest blobDigest : String) :
    Except PyError DB :=
  if (manifestDigest, blobDigest) ∈ db.blobManifestPairs then .error .integrityError
  else .ok { db with blobManifestPairs := db.blobManifestPairs ++ [(manifestDigest, blobDigest)] }

/-- Modelled from the spec: the ManifestListManifest through table
(pulp_docker.app.models, not under src/) holds one row per
(list, manifest) pair; saving an existing pair raises the
duplicate-conflict signal. -/
def saveManifestListManifest (db : DB) (listDigest manifestDigest : String) :
    Except PyError DB :=
  if (listDigest, manifestDigest) ∈ db.listManifestPairs then .error .integrityError
  else .ok { db with listManifestPairs := db.listManifestPairs ++ [(listDigest, manifestDigest)] }

/-- Modelled from the spec: ManifestTag rows are unique per
(name, manifest) pair (the spec keys a tag on its name plus target, and
the except handler of relate_manifest looks the existing row up by
exactly those two fields); saving a duplicate raises the conflict
signal. -/
def saveManifestTag (db : DB) (t : ManifestTagC) : Except PyError DB :=
  if db.manifestTagRows.any (fun r => decide (r.name = t.name ∧ r.manifest = t.manifest)) then
    .error .integrityError
  else .ok { db with manifestTagRows := db.manifestTagRows ++ [t] }

/-- Modelled from the spec: ManifestListTag rows are unique per
(name, manifest_list) pair, see saveManifestTag. -/
def saveManifestListTag (db : DB) (t : ManifestListTagC) : Except PyError DB :=
  if db.manifestListTagRows.any
      (fun r => decide (r.name = t.name ∧ r.manifest_list = t.manifest_list)) then
    .error .integrityError
  else .ok { db with manifestListTagRows := db.manifestListTagRows ++ [t] }

/-- ManifestTag.objects.get with name and manifest filters
(sync_stages.py lines 397-398). -/
def findManifestTag (db : DB) (name : String) (target : ManContent) : Option ManifestTagC :=
  db.manifestTagRows.find? (fun r => decide (r.name = name ∧ r.manifest = some target))

/-- ManifestListTag.objects.get with name and manifest_list filters
(sync_stages.py lines 429-430). -/
def findManifestListTag (db : DB) (name : String) (target : ListContent) :
    Option ManifestListTagC :=
  db.manifestListTagRows.find? (fun r => decide (r.name = name ∧ r.manifest_list = some target))

/-- Modelled from the spec: saving an ImageManifest row persists it under
its digest in the content identity store (store semantics are external to
src/); used by relate_config_blob, whose save is not guarded by a
conflict handler but updates the row keyed by digest. -/
def saveImageManifest (db : DB) (m : ManContent) : DB :=
  { db with imageManifestRows :=
      (db.imageManifestRows.filter (fun r => !decide (r.digest = m.digest))) ++ [m] }

/-- InterrelateContent.relate_config_blob (sync_stages.py lines 359-368):
read the config_relation marker, assign the config_blob field of the
related manifest content unconditionally (no assertion guards the
assignment), and save it.  A missing marker would fail reading content
off None. -/
def relate_config_blob (db : DB) (dc : DC) : DB × DC × Option PyError :=
  match dc.config_relation with
  | none => (db, dc, some .attributeError)
  | some man =>
    let man1 := { man with config_blob := some (contentKey dc.content) }
    (saveImageManifest db man1, dc, none)

/-- InterrelateContent.relate_blob (sync_stages.py lines 370-382): save
the (manifest, blob) through row; an IntegrityError is swallowed
(pass). -/
def relate_blob (db : DB) (dc : DC) : DB × DC × Option PyError :=
  match dc.blob_relation with
  | none => (db, dc, some .attributeError)
  | some man =>
    match saveBlobManifestBlob db man.digest (contentKey dc.content) with
    | .ok db1 => (db1, dc, none)
    | .error _ => (db, dc, none)

/-- InterrelateContent.relate_manifest_to_list (sync_stages.py lines
401-413): save the (list, manifest) through row; an IntegrityError is
swallowed (pass). -/
def relate_manifest_to_list (db : DB) (dc : DC) : DB × DC × Option PyError :=
  match dc.relation with
  | none => (db, dc, some .attributeError)
  | some lst =>
    match saveManifestListManifest db lst.digest (contentKey dc.content) with
    | .ok db1 => (db1, dc, none)
    | .error _ => (db, dc, none)

/-- InterrelateContent.relate_manifest (sync_stages.py lines 384-399):
assert the manifest target of the tag is unset, set it to the related
manifest, save; on IntegrityError fetch the existing (name, manifest) row
and continue with it as the content.  Content that is not a ManifestTag
has no manifest attribute (unreachable through the dispatch on
pipeline-produced nodes). -/
def relate_manifest (db : DB) (dc : DC) : DB × DC × Option PyError :=
  match dc.man_relation with
  | none => (db, dc, some .attributeError)
  | some related =>
    match dc.content with
    | .manifestTag t =>
      if t.manifest.isSome then (db, dc, some .assertionError)
      else
        let t1 := { t with manifest := some related }
        match saveManifestTag db t1 with
        | .ok db1 => (db1, { dc with content := .manifestTag t1 }, none)
        | .error _ =>
          match findManifestTag db t1.name related with
          | some existing => (db, { dc with content := .manifestTag existing }, none)
          | none => (db, { dc with content := .manifestTag t1 }, some .doesNotExist)
    | _ => (db, dc, some .attributeError)

/-- InterrelateContent.relate_manifest_list (sync_stages.py lines
415-432): the assertion and the assignment of the manifest_list target
are commented out in the source; the content is saved as it arrives (the
Builder already set its manifest_list field), and on IntegrityError the
existing (name, manifest_list) row is fetched and continued with. -/
def relate_manifest_list (db : DB) (dc : DC) : DB × DC × Option PyError :=
  match dc.list_relation with
  | none => (db, dc, some .attributeError)
  | some related =>
    match dc.content with
    | .manifestListTag t =>
      match saveManifestListTag db t with
      | .ok db1 => (db1, dc, none)
      | .error _ =>
        match findManifestListTag db t.name related with
        | some existing => (db, { dc with content := .manifestListTag existing }, none)
        | none => (db, dc, some .doesNotExist)
    | _ => (db, dc, some .attributeError)

/-- The marker dispatch of InterrelateContent.run (sync_stages.py lines
344-355): the first truthy marker, in source order, selects the handler;
a node with no marker is left untouched. -/
def dispatchDC (db : DB) (dc : DC) : DB × DC × Option PyError :=
  if dc.relation.isSome then relate_manifest_to_list db dc
  else if dc.blob_relation.isSome then relate_blob db dc
  else if dc.config_relation.isSome then relate_config_blob db dc
  else if dc.list_relation.isSome then relate_manifest_list db dc
  else if dc.man_relation.isSome then relate_manifest db dc
  else (db, dc, none)

/-- One iteration of InterrelateContent.run for a consumed node: dispatch
to the handler, then put the node downstream once; an uncaught exception
escapes before the put. -/
def resolverStep (db : DB) (dc : DC) : DB × List DC × Option PyError :=
  match dispatchDC db dc with
  | (db1, dc1, none) => (db1, [dc1], none)
  | (db1, _, some e) => (db1, [], some e)

/-- InterrelateContent.run over the whole input queue: each consumed node
is dispatched and forwarded; an uncaught exception aborts the stage. -/
def resolverRun (db : DB) : List DC → DB × List DC × Option PyError
  | [] => (db, [], none)
  | dc :: rest =>
    match resolverStep db dc with
    | (db1, puts, some e) => (db1, puts, some e)
    | (db1, puts, none) =>
      match resolverRun db1 rest with
      | (db2, puts2, err) => (db2, puts ++ puts2, err)

/-- The per-node requirement behind the tag emission order: a tag node
may only appear once its deferred-relation marker is set and its target
was already emitted (is among the nodes seen so far); non-tag nodes are
unconstrained. -/
def tagReqB (seen : List DC) (dc : DC) : Bool :=
  match dc.content with
  | .manifestListTag _ =>
    match dc.list_relation with
    | some l => seen.any (fun d => decide (d.content = .manifestList l))
    | none => false
  | .manifestTag _ =>
    match dc.man_relation with
    | some m => seen.any (fun d => decide (d.content = .imageManifest m))
    | none => false
  | _ => true

/-- tagReqB holds at every position of the emission trace, threading the
previously emitted nodes. -/
def tagOrderOK (seen : List DC) : List DC → Bool
  | [] => true
  | dc :: rest => tagReqB seen dc && tagOrderOK (seen ++ [dc]) rest

/-- Fixture manifest row for conflict scenarios. -/
def c1Man : ManContent :=
  { digest := "sha256:m", schema_version := 2, media_type := "mt", config_blob := none }

/-- Fixture manifest list row for conflict scenarios. -/
def c1Lst : ListContent :=
  { digest := "sha256:L", schema_version := 2, media_type := "lt" }

/-- Fixture store already holding the edge rows and tag rows that the
conflict scenarios collide with. -/
def c1Db : DB :=
  { blobManifestPairs := [("sha256:m", "sha256:b")],
    listManifestPairs := [("sha256:L", "sha256:mm")],
    manifestTagRows := [{ name := "latest", manifest := some c1Man }],
    manifestListTagRows := [{ name := "multi", manifest_list := some c1Lst }],
    imageManifestRows := [] }

/-- Fixture blob node whose (manifest, blob) edge already exists. -/
def c1DcB : DC :=
  { content := .manifestBlob { digest := "sha256:b", media_type := "bt" },
    blob_relation := some c1Man }

/-- Fixture member manifest node whose (list, manifest) edge already
exists. -/
def c1DcM : DC :=
  { content := .imageManifest
      { digest := "sha256:mm", schema_version := 2, media_type := "mt", config_blob := none },
    relation := some c1Lst }

/-- Fixture manifest tag node whose (name, target) row already exists. -/
def c1DcT : DC :=
  { content := .manifestTag { name := "latest", manifest := none },
    man_relation := some c1Man }

/-- Fixture list tag node whose (name, target) row already exists. -/
def c1DcL : DC :=
  { content := .manifestListTag { name := "multi", manifest_list := some c1Lst },
    list_relation := some c1Lst }

/-- Fixture manifest row whose config_blob is already set. -/
def c4Man : ManContent :=
  { digest := "sha256:m", schema_version := 2, media_type := "mt",
    config_blob := some "sha256:old" }

/-- Fixture blob node carrying a config_relation marker at c4Man. -/
def c4DC : DC :=
  { content := .manifestBlob { digest := "sha256:new", media_type := "bt" },
    config_relation := some c4Man }

/-- Fixture manifest row used as a tag target. -/
def c6Man : ManContent :=
  { digest := "sha256:t", schema_version := 2, media_type := "mt", config_blob := none }

/-- Fixture tag node carrying a man_relation marker at c6Man. -/
def c6DC : DC :=
  { content := .manifestTag { name := "latest", manifest := none },
    man_relation := some c6Man }

/-- Fixture node with no marker at all. -/
def c6Plain : DC :=
  { content := .manifestList { digest := "sha256:x", schema_version := 2, media_type := "lt" } }


theorem create_tag_shape (m url : String) (dc : DC) (h : create_tag m url = .ok dc) :
    dc = { content := .manifestListTag
             { name := (url.splitOn "/").getLastD "", manifest_list := none } } ∨
    dc = { content := .manifestTag
             { name := (url.splitOn "/").getLastD "", manifest := none } } := by
  unfold create_tag at h
  split at h
  · simp only [Except.ok.injEq] at h
    exact Or.inl h.symm
  · split at h
    · simp only [Except.ok.injEq] at h
      exact Or.inr h.symm
    · exact absurd h (by simp)

theorem tagReqB_mono (s1 s2 : List DC) (dc : DC) (hsub : ∀ d, d ∈ s1 → d ∈ s2)
    (h : tagReqB s1 dc = true) : tagReqB s2 dc = true := by
  obtain ⟨c, rel, br, cr, lr, mr⟩ := dc
  cases c <;> simp only [tagReqB] at h ⊢
  case manifestListTag t =>
    cases lr with
    | none => simp at h
    | some l =>
      simp only [List.any_eq_true] at h ⊢
      obtain ⟨d, hd, hp⟩ := h
      exact ⟨d, hsub d hd, hp⟩
  case manifestTag t =>
    cases mr with
    | none => simp at h
    | some mtarget =>
      simp only [List.any_eq_true] at h ⊢
      obtain ⟨d, hd, hp⟩ := h
      exact ⟨d, hsub d hd, hp⟩

theorem tagOrderOK_append (a b : List DC) :
    ∀ s, tagOrderOK s (a ++ b) = (tagOrderOK s a && tagOrderOK (s ++ a) b) := by
  induction a with
  | nil => intro s; simp [tagOrderOK]
  | cons x a ih =>
    intro s
    simp only [List.cons_append, tagOrderOK, List.append_eq, ih (s ++ [x]),
      List.append_assoc, List.singleton_append, List.nil_append, Bool.and_assoc]

theorem tagOrderOK_processMembers (lst : ListContent) (mans : List ManifestDescriptor) :
    ∀ s, tagOrderOK s (processMembers lst mans) = true := by
  induction mans with
  | nil => intro s; rfl
  | cons d ds ih =>
    intro s
    simp [processMembers, tagOrderOK, tagReqB, create_and_process_manifest, ih]

theorem tagOrderOK_list_branch (s : List DC) (lst : ListContent)
    (mans : List ManifestDescriptor) (nm : String) :
    tagOrderOK s
      ({ content := .manifestList lst } ::
        (processMembers lst mans ++
          [{ content := .manifestListTag { name := nm, manifest_list := some lst },
             list_relation := some lst }])) = true := by
  simp only [tagOrderOK, Bool.and_eq_true]
  refine ⟨rfl, ?_⟩
  rw [tagOrderOK_append, Bool.and_eq_true]
  refine ⟨tagOrderOK_processMembers _ _ _, ?_⟩
  simp only [tagOrderOK, Bool.and_true]
  simp only [tagReqB, List.any_eq_true]
  refine ⟨{ content := .manifestList lst }, ?_, by simp⟩
  exact List.mem_append_left _ (List.mem_append_right _ (List.mem_singleton.mpr rfl))

theorem tagOrderOK_man_branch (s : List DC) (man : ManContent) (t : ManifestTagC) :
    tagOrderOK s
      [{ content := .imageManifest man },
       { content := .manifestTag t, man_relation := some man }] = true := by
  simp only [tagOrderOK, Bool.and_true, Bool.and_eq_true]
  refine ⟨rfl, ?_⟩
  simp only [tagReqB, List.any_eq_true]
  exact ⟨{ content := .imageManifest man },
    List.mem_append_right _ (List.mem_singleton.mpr rfl), by simp⟩

theorem tagOrderOK_processResult (inc : Bool) (store : ListStore) (pl : List DC)
    (r : FetchResult) (s : List DC) :
    tagOrderOK s (processResult inc store pl r).emissions = true := by
  unfold processResult
  cases hm : getTruthy r.payload.mediaType with
  | none => rfl
  | some m =>
    dsimp only
    cases hct : create_tag m r.url with
    | error e => rfl
    | ok tag_dc =>
      dsimp only
      rcases create_tag_shape m r.url tag_dc hct with h | h <;> subst h
      · dsimp only
        cases hmans : r.payload.manifests with
        | none => rfl
        | some mans =>
          dsimp only
          exact tagOrderOK_list_branch s _ mans _
      · dsimp only
        cases hhb : handle_blobs inc
            { digest := "sha256:" ++ r.artifactSha,
              schema_version := r.payload.schemaVersion,
              media_type := m, config_blob := none }
            r.payload.layers r.payload.config pl with
        | error e => rfl
        | ok pl1 =>
          dsimp only
          exact tagOrderOK_man_branch s _ _

theorem tagOrderOK_processAll (inc : Bool) :
    ∀ (rs : List FetchResult) (store : ListStore) (pl : List DC) (s : List DC),
      tagOrderOK s (processAll inc store pl rs).emissions = true := by
  intro rs
  induction rs with
  | nil => intro store pl s; rfl
  | cons r rs ih =>
    intro store pl s
    unfold processAll
    cases hpr : processResult inc store pl r with
    | mk ems pl1 store1 err =>
      have h1 := tagOrderOK_processResult inc store pl r s
      rw [hpr] at h1
      cases err with
      | some e => simpa using h1
      | none =>
        dsimp only
        cases hall : processAll inc store1 pl1 rs with
        | mk ems2 pl2 store2 err2 =>
          have h2 := ih store1 pl1 (s ++ ems)
          rw [hall] at h2
          dsimp only
          rw [tagOrderOK_append, Bool.and_eq_true]
          exact ⟨by simpa using h1, by simpa using h2⟩

theorem layersLoop_eq_filter (inc : Bool) (man : ManContent) (ls : List LayerDescriptor) :
    ∀ acc : List DC,
      layersLoop inc man ls acc =
        (blobDCsOf man (ls.filter (include_layer inc))).map (fun ds => acc ++ ds) := by
  induction ls with
  | nil => intro acc; simp [layersLoop, blobDCsOf, Except.map]
  | cons l ls ih =>
    intro acc
    cases hl : include_layer inc l with
    | false =>
      simp only [layersLoop, hl, Bool.false_eq_true, if_false, List.filter_cons, ih]
    | true =>
      simp only [layersLoop, hl, if_true, List.filter_cons]
      cases hb : create_and_process_blob (some l) with
      | error e => simp [blobDCsOf, hb, Except.map]
      | ok b =>
        dsimp only
        rw [ih]
        simp only [blobDCsOf, hb]
        cases blobDCsOf man (ls.filter (include_layer inc)) with
        | error e => simp [Except.map]
        | ok ds => simp [Except.map, List.append_assoc]

/-- Claim C1: for every node consumed by the Deferred Reference
Resolver, each relation write is idempotent under a uniqueness conflict.
Saving an already-present (manifest, blob) edge or (list, manifest) edge
is a no-op that surfaces no error, and saving a tag whose
(name, target) row already exists surfaces no error either: the Resolver
re-reads the existing row and continues with it as the node content. -/
theorem C1_relation_writes_idempotent
    (db : DB) (dcB dcM dcT dcL : DC)
    (manB manT : ManContent) (b : BlobContent) (lstM lstL : ListContent)
    (mm : ManContent) (t : ManifestTagC) (tl : ManifestListTagC)
    (hB : dcB.content = .manifestBlob b) (hBr : dcB.blob_relation = some manB)
    (hBc : (manB.digest, b.digest) ∈ db.blobManifestPairs)
    (hM : dcM.content = .imageManifest mm) (hMr : dcM.relation = some lstM)
    (hMc : (lstM.digest, mm.digest) ∈ db.listManifestPairs)
    (hT : dcT.content = .manifestTag t) (hTr : dcT.man_relation = some manT)
    (hTn : t.manifest = none)
    (hTc : ({ name := t.name, manifest := some manT } : ManifestTagC) ∈ db.manifestTagRows)
    (hL : dcL.content = .manifestListTag tl) (hLr : dcL.list_relation = some lstL)
    (hLt : tl.manifest_list = some lstL)
    (hLc : ({ name := tl.name, manifest_list := some lstL } : ManifestListTagC) ∈
      db.manifestListTagRows) :
    relate_blob db dcB = (db, dcB, none) ∧
    relate_manifest_to_list db dcM = (db, dcM, none) ∧
    (∃ ex, findManifestTag db t.name manT = some ex ∧
       relate_manifest db dcT = (db, { dcT with content := .manifestTag ex }, none)) ∧
    (∃ ex, findManifestListTag db tl.name lstL = some ex ∧
       relate_manifest_list db dcL = (db, { dcL with content := .manifestListTag ex }, none)) := by
  refine ⟨?_, ?_, ?_, ?_⟩
  · simp [relate_blob, hBr, hB, contentKey, saveBlobManifestBlob, hBc]
  · simp [relate_manifest_to_list, hMr, hM, contentKey, saveManifestListManifest, hMc]
  · have hsave : saveManifestTag db { name := t.name, manifest := some manT } =
        .error .integrityError := by
      unfold saveManifestTag
      rw [if_pos]
      rw [List.any_eq_true]
      exact ⟨{ name := t.name, manifest := some manT }, hTc, by simp⟩
    cases hfind : findManifestTag db t.name manT with
    | none =>
      exfalso
      unfold findManifestTag at hfind
      have hall := List.find?_eq_none.mp hfind { name := t.name, manifest := some manT } hTc
      simp at hall
    | some ex =>
      refine ⟨ex, rfl, ?_⟩
      simp [relate_manifest, hTr, hT, hTn, hsave, hfind]
  · have hsave : saveManifestListTag db tl = .error .integrityError := by
      unfold saveManifestListTag
      rw [if_pos]
      rw [List.any_eq_true]
      exact ⟨{ name := tl.name, manifest_list := some lstL }, hLc, by simp [hLt]⟩
    cases hfind : findManifestListTag db tl.name lstL with
    | none =>
      exfalso
      unfold findManifestListTag at hfind
      have hall := List.find?_eq_none.mp hfind
        { name := tl.name, manifest_list := some lstL } hLc
      simp at hall
    | some ex =>
      refine ⟨ex, rfl, ?_⟩
      simp [relate_manifest_list, hLr, hL, hsave, hfind]

/-- Witness for C1: a store already holding the blob edge, the list
edge and both tag rows, against which all four conflict reactions fire
as claimed. -/
theorem C1_witness :
    relate_blob c1Db c1DcB = (c1Db, c1DcB, none) ∧
    relate_manifest_to_list c1Db c1DcM = (c1Db, c1DcM, none) ∧
    (∃ ex, findManifestTag c1Db "latest" c1Man = some ex ∧
       relate_manifest c1Db c1DcT = (c1Db, { c1DcT with content := .manifestTag ex }, none)) ∧
    (∃ ex, findManifestListTag c1Db "multi" c1Lst = some ex ∧
       relate_manifest_list c1Db c1DcL =
         (c1Db, { c1DcL with content := .manifestListTag ex }, none)) :=
  C1_relation_writes_idempotent c1Db c1DcB c1DcM c1DcT c1DcL c1Man c1Man
    { digest := "sha256:b", media_type := "bt" } c1Lst c1Lst
    { digest := "sha256:mm", schema_version := 2, media_type := "mt", config_blob := none }
    { name := "latest", manifest := none }
    { name := "multi", manifest_list := some c1Lst }
    rfl rfl (by decide) rfl rfl (by decide) rfl rfl rfl (by decide) rfl rfl rfl (by decide)

/-- Claim C2: the layer filter excludes a layer exactly when its media
type is the foreign-layer media type and the remote disallows foreign
layers; handle_blobs applies the filter independently per layer (the
emitted layer blobs are exactly those of the filtered layer list) and
never to the config blob, which is always emitted last. -/
theorem C2_layer_filter (inc : Bool) (l : LayerDescriptor) (man : ManContent)
    (ls : List LayerDescriptor) (c : LayerDescriptor) (m : String)
    (pl out : List DC) (hc : c.mediaType = some m)
    (hok : handle_blobs inc man (some ls) (some c) pl = .ok out) :
    (include_layer inc l = false ↔
      (l.mediaType = some MEDIA_TYPE.FOREIGN_BLOB ∧ inc = false)) ∧
    ∃ ds, blobDCsOf man (ls.filter (include_layer inc)) = .ok ds ∧
      out = pl ++ ds ++
        [{ content := .manifestBlob { digest := c.digest, media_type := m },
           config_relation := some man }] := by
  constructor
  · cases inc <;> by_cases hf : l.mediaType = some MEDIA_TYPE.FOREIGN_BLOB <;>
      simp [include_layer, hf]
  · unfold handle_blobs at hok
    dsimp only at hok
    rw [layersLoop_eq_filter] at hok
    cases hds : blobDCsOf man (ls.filter (include_layer inc)) with
    | error e => rw [hds] at hok; simp [Except.map] at hok
    | ok ds =>
      rw [hds] at hok
      simp only [Except.map] at hok
      have hcb : create_and_process_blob (some c) =
          .ok { digest := c.digest, media_type := m } := by
        simp [create_and_process_blob, hc]
      rw [hcb] at hok
      simp only [Except.ok.injEq] at hok
      exact ⟨ds, rfl, by rw [← hok]⟩

/-- Witness for C2: a foreign layer is dropped when foreign layers are
disallowed, an ordinary layer is kept, and the config blob is emitted
after the kept layers. -/
theorem C2_witness :
    (include_layer false { digest := "sha256:f", mediaType := some MEDIA_TYPE.FOREIGN_BLOB }
        = false ↔
      ((({ digest := "sha256:f", mediaType := some MEDIA_TYPE.FOREIGN_BLOB } :
          LayerDescriptor)).mediaType = some MEDIA_TYPE.FOREIGN_BLOB ∧ false = false)) ∧
    ∃ ds, blobDCsOf c1Man
        ([{ digest := "sha256:f", mediaType := some MEDIA_TYPE.FOREIGN_BLOB },
          { digest := "sha256:l1", mediaType := some "lm" }].filter (include_layer false))
        = .ok ds ∧
      [({ content := .manifestBlob { digest := "sha256:l1", media_type := "lm" },
          blob_relation := some c1Man } : DC),
       { content := .manifestBlob { digest := "sha256:c", media_type := "cm" },
         config_relation := some c1Man }] = [] ++ ds ++
        [{ content := .manifestBlob { digest := "sha256:c", media_type := "cm" },
           config_relation := some c1Man }] :=
  C2_layer_filter false { digest := "sha256:f", mediaType := some MEDIA_TYPE.FOREIGN_BLOB }
    c1Man
    [{ digest := "sha256:f", mediaType := some MEDIA_TYPE.FOREIGN_BLOB },
     { digest := "sha256:l1", mediaType := some "lm" }]
    { digest := "sha256:c", mediaType := some "cm" } "cm" []
    [{ content := .manifestBlob { digest := "sha256:l1", media_type := "lm" },
       blob_relation := some c1Man },
     { content := .manifestBlob { digest := "sha256:c", media_type := "cm" },
       config_relation := some c1Man }]
    rfl rfl

/-- Claim C3: a completed fetch whose parsed payload has no mediaType
field is dropped silently: no node is emitted for it, nothing is added
to the deferred blob list, no error is raised, and processing of the
remaining fetch results continues unchanged. -/
theorem C3_missing_mediatype_dropped (inc : Bool) (store : ListStore) (pl : List DC)
    (r : FetchResult) (rs : List FetchResult) (h : r.payload.mediaType = none) :
    processResult inc store pl r = ⟨[], pl, store, none⟩ ∧
    processAll inc store pl (r :: rs) = processAll inc store pl rs := by
  have h1 : processResult inc store pl r = ⟨[], pl, store, none⟩ := by
    simp [processResult, getTruthy, h]
  refine ⟨h1, ?_⟩
  rcases hrest : processAll inc store pl rs with ⟨ems2, pl2, store2, err2⟩
  simp [processAll, h1, hrest]

/-- Witness for C3: a payload without mediaType between two well-formed
fetches leaves the run of the remaining fetches untouched. -/
theorem C3_witness :
    processResult true [] []
        { url := "http://r/v2/ns/manifests/latest", artifactSha := "aa",
          payload := { mediaType := none, schemaVersion := 1, manifests := none,
                       layers := none, config := none } } = ⟨[], [], [], none⟩ ∧
    processAll true [] []
        [{ url := "http://r/v2/ns/manifests/latest", artifactSha := "aa",
           payload := { mediaType := none, schemaVersion := 1, manifests := none,
                        layers := none, config := none } }] = processAll true [] [] [] :=
  C3_missing_mediatype_dropped true [] []
    { url := "http://r/v2/ns/manifests/latest", artifactSha := "aa",
      payload := { mediaType := none, schemaVersion := 1, manifests := none,
                   layers := none, config := none } } [] rfl

/-- Counterexample for C4: a config blob arriving for a manifest whose
config_blob is already set is written through with no assertion failure:
relate_config_blob reports no error and the saved manifest row carries
the new value, silently overwriting the old one. -/
theorem C4_counterexample :
    (relate_config_blob emptyDB c4DC).2.2 = none ∧
    (relate_config_blob emptyDB c4DC).1.imageManifestRows =
      [{ digest := "sha256:m", schema_version := 2, media_type := "mt",
         config_blob := some "sha256:new" }] ∧
    c4Man.config_blob = some "sha256:old" := by decide

/-- Claim C4 as amended: of the three single-valued-target operations,
only relate_manifest is guarded by an assertion — setting a ManifestTag
manifest target that is already set fails with an assertion failure;
relate_config_blob assigns a manifest config_blob unconditionally with no
assertion, silently overwriting any already-set value; and
relate_manifest_list neither asserts nor assigns the manifest_list target
(both statements are commented out in the source) — it saves the tag
content exactly as it arrives. -/
theorem C4_amended_only_tag_target_asserts
    (db db2 : DB) (dcT dcC dcL : DC) (t : ManifestTagC) (target manC : ManContent)
    (tl : ManifestListTagC) (lst : ListContent)
    (hT : dcT.content = .manifestTag t) (hTr : dcT.man_relation = some target)
    (hTset : t.manifest.isSome)
    (hC : dcC.config_relation = some manC)
    (hL : dcL.content = .manifestListTag tl) (hLr : dcL.list_relation = some lst)
    (hLok : saveManifestListTag db tl = .ok db2) :
    relate_manifest db dcT = (db, dcT, some .assertionError) ∧
    relate_config_blob db dcC =
      (saveImageManifest db { manC with config_blob := some (contentKey dcC.content) },
        dcC, none) ∧
    relate_manifest_list db dcL = (db2, dcL, none) := by
  refine ⟨?_, ?_, ?_⟩
  · simp [relate_manifest, hTr, hT, hTset]
  · simp [relate_config_blob, hC]
  · simp [relate_manifest_list, hLr, hL, hLok]

/-- Witness for C4 as amended: concrete nodes exercising the assertion
failure, the silent overwrite and the as-is list-tag save. -/
theorem C4_witness :
    relate_manifest emptyDB
        { content := .manifestTag { name := "latest", manifest := some c1Man },
          man_relation := some c1Man } =
      (emptyDB,
       { content := .manifestTag { name := "latest", manifest := some c1Man },
         man_relation := some c1Man }, some .assertionError) ∧
    relate_config_blob emptyDB c4DC =
      (saveImageManifest emptyDB
        { c4Man with config_blob := some (contentKey c4DC.content) }, c4DC, none) ∧
    relate_manifest_list emptyDB c1DcL =
      ({ emptyDB with
          manifestListTagRows := [{ name := "multi", manifest_list := some c1Lst }] },
       c1DcL, none) :=
  C4_amended_only_tag_target_asserts emptyDB
    { emptyDB with
        manifestListTagRows := [{ name := "multi", manifest_list := some c1Lst }] }
    { content := .manifestTag { name := "latest", manifest := some c1Man },
      man_relation := some c1Man }
    c4DC c1DcL { name := "latest", manifest := some c1Man } c1Man c4Man
    { name := "multi", manifest_list := some c1Lst } c1Lst
    rfl rfl rfl rfl rfl rfl rfl

/-- Claim C5: in every execution of the parsing loop, over any list of
completed fetch results in any completion order, a tag node appears on
the output queue only after the node it targets (its manifest or
manifest list) has already been emitted and only with its
deferred-relation marker pointing at that target already registered. -/
theorem C5_tag_emitted_after_target (inc : Bool) (store : ListStore) (pl : List DC)
    (rs : List FetchResult) :
    tagOrderOK [] (processAll inc store pl rs).emissions = true :=
  tagOrderOK_processAll inc rs store pl []

/-- Counterexample for C6: a manifest tag node consumed by the Resolver
is forwarded exactly once but not unchanged — the forwarded node carries
the manifest target attached by relate_manifest, so it differs from the
consumed node. -/
theorem C6_counterexample :
    (resolverStep emptyDB c6DC).2.2 = none ∧
    (resolverStep emptyDB c6DC).2.1.length = 1 ∧
    (resolverStep emptyDB c6DC).2.1 ≠ [c6DC] := by decide

/-- Claim C6 as amended: every node the Resolver consumes whose handler
raises no exception is forwarded exactly once, regardless of whether any
relation was attached and regardless of whether a uniqueness conflict
occurred while attaching it; a node with no marker is forwarded
unchanged, but a node whose handler attaches a relation may be forwarded
with its content modified (the manifest target is set on a tag, and on a
tag uniqueness conflict the content is replaced by the existing row). -/
theorem C6_amended_forwarded_exactly_once (db : DB) (dc : DC) :
    ((resolverStep db dc).2.2 = none → (resolverStep db dc).2.1.length = 1) ∧
    (dc.relation = none → dc.blob_relation = none → dc.config_relation = none →
      dc.list_relation = none → dc.man_relation = none →
      resolverStep db dc = (db, [dc], none)) := by
  constructor
  · intro h
    rcases hd : dispatchDC db dc with ⟨db1, dc1, err⟩
    cases err with
    | none => simp [resolverStep, hd]
    | some e => rw [resolverStep, hd] at h; simp at h
  · intro h1 h2 h3 h4 h5
    simp [resolverStep, dispatchDC, h1, h2, h3, h4, h5]

/-- Witness for C6 as amended: a marker-less node is forwarded exactly
once and unchanged. -/
theorem C6_witness :
    (resolverStep emptyDB c6Plain).2.1.length = 1 ∧
    resolverStep emptyDB c6Plain = (emptyDB, [c6Plain], none) :=
  ⟨(C6_amended_forwarded_exactly_once emptyDB c6Plain).1 (by decide),
   (C6_amended_forwarded_exactly_once emptyDB c6Plain).2 rfl rfl rfl rfl rfl⟩

/-- Claim C7: a single-manifest payload with an empty layer list still
emits exactly one blob node, the config blob with the config_relation
marker at its manifest, and the step completes without error. -/
theorem C7_config_only_manifest (inc : Bool) (store : ListStore) (pl : List DC)
    (r : FetchResult) (c : LayerDescriptor) (m : String)
    (h1 : r.payload.mediaType = some MEDIA_TYPE.MANIFEST_V2)
    (h2 : r.payload.layers = some [])
    (h3 : r.payload.config = some c) (h4 : c.mediaType = some m) :
    (processResult inc store pl r).err = none ∧
    (processResult inc store pl r).putLater =
      pl ++ [{ content := .manifestBlob { digest := c.digest, media_type := m },
               config_relation := some
                 { digest := "sha256:" ++ r.artifactSha,
                   schema_version := r.payload.schemaVersion,
                   media_type := MEDIA_TYPE.MANIFEST_V2, config_blob := none } }] := by
  have hv : getTruthy r.payload.mediaType = some MEDIA_TYPE.MANIFEST_V2 := by
    rw [h1]
    simp [getTruthy]
    decide
  have hne : ¬ (MEDIA_TYPE.MANIFEST_V2 = MEDIA_TYPE.MANIFEST_LIST) := by decide
  have hct : create_tag MEDIA_TYPE.MANIFEST_V2 r.url =
      .ok { content := .manifestTag
              { name := (r.url.splitOn "/").getLastD "", manifest := none } } := by
    simp [create_tag, hne]
  have hhb : handle_blobs inc
      { digest := "sha256:" ++ r.artifactSha, schema_version := r.payload.schemaVersion,
        media_type := MEDIA_TYPE.MANIFEST_V2, config_blob := none }
      r.payload.layers r.payload.config pl =
      .ok (pl ++ [{ content := .manifestBlob { digest := c.digest, media_type := m },
                    config_relation := some
                      { digest := "sha256:" ++ r.artifactSha,
                        schema_version := r.payload.schemaVersion,
                        media_type := MEDIA_TYPE.MANIFEST_V2, config_blob := none } }]) := by
    rw [h2, h3]
    simp [handle_blobs, layersLoop, create_and_process_blob, h4]
  unfold processResult
  rw [hv]
  dsimp only
  rw [hct]
  dsimp only
  rw [hhb]
  exact ⟨rfl, rfl⟩

/-- Witness for C7: a concrete manifest payload with an empty layer list
and a config descriptor. -/
theorem C7_witness :
    (processResult true [] []
        { url := "http://r/v2/ns/manifests/latest", artifactSha := "aa",
          payload := { mediaType := some MEDIA_TYPE.MANIFEST_V2, schemaVersion := 2,
                       manifests := none, layers := some [],
                       config := some { digest := "sha256:c", mediaType := some "cm" } } }).err
      = none ∧
    (processResult true [] []
        { url := "http://r/v2/ns/manifests/latest", artifactSha := "aa",
          payload := { mediaType := some MEDIA_TYPE.MANIFEST_V2, schemaVersion := 2,
                       manifests := none, layers := some [],
                       config := some { digest := "sha256:c", mediaType := some "cm" } } }).putLater
      = [] ++ [{ content := .manifestBlob { digest := "sha256:c", media_type := "cm" },
                 config_relation := some
                   { digest := "sha256:" ++ "aa", schema_version := 2,
                     media_type := MEDIA_TYPE.MANIFEST_V2, config_blob := none } }] :=
  C7_config_only_manifest true [] []
    { url := "http://r/v2/ns/manifests/latest", artifactSha := "aa",
      payload := { mediaType := some MEDIA_TYPE.MANIFEST_V2, schemaVersion := 2,
                   manifests := none, layers := some [],
                   config := some { digest := "sha256:c", mediaType := some "cm" } } }
    { digest := "sha256:c", mediaType := some "cm" } "cm" rfl rfl rfl rfl

/-- Claim C8: the two observed Builder variants are not equivalent on
the tag-discovery step: the sync_stages1.py variant replaces the fetched
tag list with the hardcoded fixed list of six names and so plans fetches
for those six tags whatever was fetched, while the sync_stages.py
variant processes exactly the fetched tag list; on the fetched list with
the single tag foo the two variants process different tag sets and plan
different fetch requests. -/
theorem C8_variants_differ_on_tag_discovery :
    (∀ l : List String, tagDiscovery { tags := some l } = .ok l) ∧
    (∀ l : List String, tagDiscovery1 { tags := some l } = .ok hardcodedTagList) ∧
    tagDiscovery1 { tags := some ["foo"] } ≠ tagDiscovery { tags := some ["foo"] } ∧
    plannedTagFetches "library/busybox" hardcodedTagList ≠
      plannedTagFetches "library/busybox" ["foo"] := by
  refine ⟨fun l => rfl, fun l => rfl, ?_, ?_⟩
  · intro h
    rw [tagDiscovery, tagDiscovery1] at h
    simp only [Except.ok.injEq] at h
    exact absurd h (by decide)
  · intro h
    simp only [plannedTagFetches, hardcodedTagList] at h
    exact absurd h (by decide)

/-- Claim C9: a payload whose mediaType is present and non-empty but is
neither the manifest-v2 nor the manifest-list media type passes the
truthiness guard, create_tag then fails with an unbound-local-variable
error, and the run aborts: nothing is emitted and the remaining fetch
results are not processed. -/
theorem C9_unsupported_mediatype_aborts (inc : Bool) (store : ListStore) (pl : List DC)
    (r : FetchResult) (rs : List FetchResult) (m : String)
    (hm : r.payload.mediaType = some m) (h0 : m ≠ "")
    (h1 : m ≠ MEDIA_TYPE.MANIFEST_LIST) (h2 : m ≠ MEDIA_TYPE.MANIFEST_V2) :
    create_tag m r.url = .error .unboundLocalError ∧
    processAll inc store pl (r :: rs) = ⟨[], pl, store, some .unboundLocalError⟩ := by
  have hct : create_tag m r.url = .error .unboundLocalError := by
    simp [create_tag, h1, h2]
  refine ⟨hct, ?_⟩
  have hpr : processResult inc store pl r = ⟨[], pl, store, some .unboundLocalError⟩ := by
    unfold processResult
    rw [hm]
    simp only [getTruthy, h0, if_false]
    rw [hct]
  simp [processAll, hpr]

/-- Witness for C9: a schema1 media type is accepted by the guard and
aborts the run. -/
theorem C9_witness :
    create_tag "application/vnd.docker.distribution.manifest.v1+json"
        "http://r/v2/ns/manifests/old" = .error .unboundLocalError ∧
    processAll true [] []
        [{ url := "http://r/v2/ns/manifests/old", artifactSha := "aa",
           payload := { mediaType :=
                          some "application/vnd.docker.distribution.manifest.v1+json",
                        schemaVersion := 1, manifests := none, layers := none,
                        config := none } }] = ⟨[], [], [], some .unboundLocalError⟩ :=
  C9_unsupported_mediatype_aborts true [] []
    { url := "http://r/v2/ns/manifests/old", artifactSha := "aa",
      payload := { mediaType :=
                     some "application/vnd.docker.distribution.manifest.v1+json",
                   schemaVersion := 1, manifests := none, layers := none, config := none } }
    [] "application/vnd.docker.distribution.manifest.v1+json"
    rfl (by decide) (by decide) (by decide)

/-- Claim C10: handle_blobs builds the config blob unconditionally from
the config key of the payload; when the layer loop itself succeeds but
the payload has no config field, create_and_process_blob receives None,
subscripting it raises TypeError, and handle_blobs fails instead of
producing a manifest with no config blob. -/
theorem C10_missing_config_type_error (inc : Bool) (man : ManContent)
    (ls : List LayerDescriptor) (pl acc : List DC)
    (h : layersLoop inc man ls pl = .ok acc) :
    create_and_process_blob none = .error .typeError ∧
    handle_blobs inc man (some ls) none pl = .error .typeError := by
  refine ⟨rfl, ?_⟩
  unfold handle_blobs
  dsimp only
  rw [h]
  rfl

/-- Witness for C10: a payload with one well-formed layer and no config
field. -/
theorem C10_witness :
    create_and_process_blob none = .error .typeError ∧
    handle_blobs true c1Man (some [{ digest := "sha256:l1", mediaType := some "lm" }])
        none [] = .error .typeError :=
  C10_missing_config_type_error true c1Man
    [{ digest := "sha256:l1", mediaType := some "lm" }] []
    [{ content := .manifestBlob { digest := "sha256:l1", media_type := "lm" },
       blob_relation := some c1Man }]
    rfl
